import Mathlib

/-!
Shallow embedding of the user-listing / profile service of the repository
(Next.js API routes `GET /api/users` and `GET|PUT /api/profile`).

The storage boundary (PostgreSQL) is modelled as lists of rows; the SQL
queries of the two handlers are translated statement by statement into pure
Lean functions over that state.  Machine integers are modelled as `Nat`/`Int`
(ids and counts are `Nat`, epoch-millisecond timestamps are `Int`).  The
server clock's timezone is taken to be UTC, so `today.setHours(0,0,0,0)`
truncates an epoch timestamp to the enclosing multiple of 86400000 ms, and a
date-only string parsed by `new Date` denotes that day's midnight timestamp.
SQL `ORDER BY` is rendered with `List.insertionSort`, a stable sort; the
order of rows that compare equal under the ORDER BY key is unspecified in
PostgreSQL, and no theorem below depends on it.
-/

namespace UsersApi

/-- The free-form `profile_json` document, §3 of the spec: four optional
sub-fields (maps are association lists, sequences are lists). -/
structure ProfileJson where
  social_media : Option (List (String × String))
  preferences : Option (List (String × String))
  skills : Option (List String)
  interests : Option (List String)
deriving DecidableEq

/-- A row of the `users` relation.  Nullable columns are `Option`. -/
structure UserRow where
  id : Nat
  auth_id : Nat
  username : String
  full_name : String
  birth_date : Option Int
  bio : Option String
  long_bio : Option String
  profile_json : Option ProfileJson
  address : Option String
  phone_number : Option String
  created_at : Int
  updated_at : Int
deriving DecidableEq

/-- A row of the `auth` relation (one-to-one with `users` via `auth_id`). -/
structure AuthRow where
  id : Nat
  email : String
  updated_at : Int
deriving DecidableEq

/-- A row of the `user_roles` relation. -/
structure RoleRow where
  user_id : Nat
  role : String
  created_at : Int
deriving DecidableEq

/-- A row of the `user_divisions` relation. -/
structure DivisionRow where
  user_id : Nat
  division_name : String
  created_at : Int
deriving DecidableEq

/-- A row of the `user_logs` relation. -/
structure LogRow where
  user_id : Nat
  action : String
deriving DecidableEq

/-- The storage state: the five relations read by the two handlers. -/
structure Storage where
  users : List UserRow
  auth : List AuthRow
  user_roles : List RoleRow
  user_divisions : List DivisionRow
  user_logs : List LogRow
deriving DecidableEq

/-- `user_stats.log_count` of the CTE in the listing query:
`COUNT(*) FROM user_logs GROUP BY user_id`, coalesced to 0. -/
def logCountOf (s : Storage) (uid : Nat) : Nat :=
  (s.user_logs.filter (fun l => l.user_id == uid)).length

/-- `COUNT(*) FILTER (WHERE action = act)` of the `user_stats` CTE. -/
def actionCountOf (s : Storage) (uid : Nat) (act : String) : Nat :=
  (s.user_logs.filter (fun l => l.user_id == uid && l.action == act)).length

/-- `user_role_stats.role_count`, coalesced to 0. -/
def roleCountOf (s : Storage) (uid : Nat) : Nat :=
  (s.user_roles.filter (fun r => r.user_id == uid)).length

/-- `user_division_stats.division_count`, coalesced to 0. -/
def divisionCountOf (s : Storage) (uid : Nat) : Nat :=
  (s.user_divisions.filter (fun d => d.user_id == uid)).length

/-- `LEFT JOIN auth a ON u.auth_id = a.id`: `auth.id` is a key, so the join
produces at most one row; `a.email` is null when no row matches. -/
def emailOf (s : Storage) (authId : Nat) : Option String :=
  (s.auth.find? (fun a => a.id == authId)).map (fun a => a.email)

/-- One row of the listing query result, before application-layer shaping:
the user row joined (with fan-out) to one `user_roles` row, one
`user_divisions` row, the auth email, and the coalesced per-user counts. -/
structure JoinedRow where
  u : UserRow
  email : Option String
  role : Option String
  division : Option String
  log_count : Nat
  role_count : Nat
  division_count : Nat
  login_count : Nat
  update_count : Nat
deriving DecidableEq

/-- LEFT OUTER JOIN fan-out against a child table: a user with no matching
child rows keeps a single row with a null joined value; otherwise one row
per matching child row. -/
def leftFan {α β : Type} (f : α → β) (l : List α) : List (Option β) :=
  match l with
  | [] => [none]
  | l => l.map (fun x => some (f x))

/-- The joined (pre-WHERE, pre-ORDER, pre-LIMIT) row set of the listing
query of `GET /api/users`: `users LEFT JOIN auth LEFT JOIN user_roles
LEFT JOIN user_divisions LEFT JOIN (stats CTEs)`.  The plain joins against
`user_roles` and `user_divisions` fan out: each user contributes one row
per combination of its role rows and division rows (one row when it has
none of either). -/
def joinedRows (s : Storage) : List JoinedRow :=
  s.users.flatMap (fun u =>
    (leftFan RoleRow.role (s.user_roles.filter (fun r => r.user_id == u.id))).flatMap
      (fun ro =>
        (leftFan DivisionRow.division_name
            (s.user_divisions.filter (fun d => d.user_id == u.id))).map
          (fun dv =>
            { u := u
              email := emailOf s u.auth_id
              role := ro
              division := dv
              log_count := logCountOf s u.id
              role_count := roleCountOf s u.id
              division_count := divisionCountOf s u.id
              login_count := actionCountOf s u.id "login"
              update_count := actionCountOf s u.id "update_profile" })))

/-- The WHERE clause of the listing row query.  The filter is applied only
when the `division` query parameter is present, non-empty (JS truthiness)
and different from the sentinel "all"; it then requires the joined
`user_divisions` row to exist and carry that name. -/
def matchesWhere (f : Option String) (r : JoinedRow) : Bool :=
  match f with
  | none => true
  | some d => if d == "" || d == "all" then true else r.division == some d

/-- `ORDER BY u.created_at DESC, u.id DESC`: row `a` sorts no later than
row `b`. -/
def rowLE (a b : JoinedRow) : Prop :=
  b.u.created_at < a.u.created_at ∨
    (a.u.created_at = b.u.created_at ∧ b.u.id ≤ a.u.id)

instance rowLE.instDecidableRel : DecidableRel rowLE := fun _a _b =>
  inferInstanceAs (Decidable (_ ∨ _))

instance rowLE.instIsTotal : IsTotal JoinedRow rowLE :=
  ⟨fun a b => by unfold rowLE; omega⟩

instance rowLE.instIsTrans : IsTrans JoinedRow rowLE :=
  ⟨fun a b c hab hbc => by unfold rowLE at *; omega⟩

/-- The WHERE-filtered, ORDER-BY-sorted row set of the listing query. -/
def sortedRows (s : Storage) (f : Option String) : List JoinedRow :=
  List.insertionSort rowLE ((joinedRows s).filter (matchesWhere f))

/-- `LIMIT pageSize OFFSET (page-1)*pageSize` applied to the sorted rows.
The handler computes `offset = (page-1)*pageSize`; the model is meaningful
for `page ≥ 1` (for `page = 0` PostgreSQL would reject the negative
offset, while truncated `Nat` subtraction yields offset 0 here). -/
def pagedRows (s : Storage) (f : Option String) (page pageSize : Nat) :
    List JoinedRow :=
  ((sortedRows s f).drop ((page - 1) * pageSize)).take pageSize

/-- JS truthiness of a nullable string column (null and "" are falsy). -/
def presentStr : Option String → Bool
  | none => false
  | some s => !(s == "")

/-- One element of the `users` array of the `GET /api/users` response, after
the application-layer `map` over the query rows. -/
structure UserView where
  id : Nat
  username : String
  fullName : String
  email : Option String
  birthDate : Option Int
  bio : Option String
  longBio : Option String
  profileJson : Option ProfileJson
  address : Option String
  phoneNumber : Option String
  createdAt : Int
  updatedAt : Int
  role : Option String
  division : Option String
  logCount : Nat
  roleCount : Nat
  divisionCount : Nat
  loginCount : Nat
  updateCount : Nat
  daysSinceCreated : Int
  isActive : Bool
  isSenior : Bool
  socialMedia : List (String × String)
  preferences : List (String × String)
  skills : List String
  interests : List String
  hasProfile : Bool
  hasBio : Bool
  hasAddress : Bool
  hasPhone : Bool
  profileCompleteness : Nat
deriving DecidableEq

/-- The row-shaping `map` of the listing handler.  `daysSinceCreated` is
`Math.floor((now - created_at)/86400000)` (Int division is floor division
for a positive divisor); `profileCompleteness` is `(k/4)*100 = 25*k` where
`k` counts the truthy members of `[bio, address, phone_number,
profile_json]`. -/
def shapeRow (now : Int) (r : JoinedRow) : UserView :=
  { id := r.u.id
    username := r.u.username
    fullName := r.u.full_name
    email := r.email
    birthDate := r.u.birth_date
    bio := r.u.bio
    longBio := r.u.long_bio
    profileJson := r.u.profile_json
    address := r.u.address
    phoneNumber := r.u.phone_number
    createdAt := r.u.created_at
    updatedAt := r.u.updated_at
    role := r.role
    division := r.division
    logCount := r.log_count
    roleCount := r.role_count
    divisionCount := r.division_count
    loginCount := r.login_count
    updateCount := r.update_count
    daysSinceCreated := (now - r.u.created_at) / 86400000
    isActive := decide (5 < r.log_count)
    isSenior := r.role == some "admin" || r.role == some "moderator"
    socialMedia := ((r.u.profile_json.map (fun p => p.social_media)).join).getD []
    preferences := ((r.u.profile_json.map (fun p => p.preferences)).join).getD []
    skills := ((r.u.profile_json.map (fun p => p.skills)).join).getD []
    interests := ((r.u.profile_json.map (fun p => p.interests)).join).getD []
    hasProfile := r.u.profile_json.isSome
    hasBio := presentStr r.u.bio
    hasAddress := presentStr r.u.address
    hasPhone := presentStr r.u.phone_number
    profileCompleteness :=
      25 * ([presentStr r.u.bio, presentStr r.u.address,
             presentStr r.u.phone_number,
             r.u.profile_json.isSome].countP (fun b => b)) }

/-- The WHERE predicate of the separate count query
(`SELECT COUNT(DISTINCT u.id) FROM users u LEFT JOIN user_divisions ud ...`),
expressed per user: under an active division filter a user is counted iff
some `user_divisions` row of theirs carries the filtered name. -/
def matchesCountWhere (s : Storage) (f : Option String) (u : UserRow) : Bool :=
  match f with
  | none => true
  | some d =>
      if d == "" || d == "all" then true
      else s.user_divisions.any (fun dv => dv.user_id == u.id && dv.division_name == d)

/-- `COUNT(DISTINCT u.id)` of the count query. -/
def countTotal (s : Storage) (f : Option String) : Nat :=
  (((s.users.filter (matchesCountWhere s f)).map (fun u => u.id)).dedup).length

/-- The JS object accumulated by `acc.usersByDivision[user.division] =
(acc.usersByDivision[user.division] || 0) + 1`, as an insertion-ordered
association list keyed by the (nullable) division of each page row. -/
def bumpDivision (acc : List (Option String × Nat)) (k : Option String) :
    List (Option String × Nat) :=
  match acc with
  | [] => [(k, 1)]
  | (k1, n) :: rest =>
      if k1 = k then (k1, n + 1) :: rest else (k1, n) :: bumpDivision rest k

/-- The `usersByDivision` member of the summary reduce, folded over the
returned page only. -/
def usersByDivisionOf (vs : List UserView) : List (Option String × Nat) :=
  vs.foldl (fun acc v => bumpDivision acc v.division) []

/-- The JSON body of a 200 response of `GET /api/users`. -/
structure ListResponse where
  users : List UserView
  total : Nat
  page : Nat
  pageSize : Nat
  totalPages : Nat
  activeUsers : Nat
  seniorUsers : Nat
  usersWithCompleteProfiles : Nat
  usersByDivision : List (Option String × Nat)
  filteredBy : String
deriving DecidableEq

/-- The `GET /api/users` handler on a storage state: row query and count
query (two independent reads over the same state), application-layer
shaping, the page-local summary reduce, and the response assembly.
`totalPages` is `Math.ceil(totalCount / pageSize)`, rendered for `pageSize
≥ 1` as `(total + pageSize - 1) / pageSize`. -/
def listUsers (s : Storage) (f : Option String) (page pageSize : Nat)
    (now : Int) : ListResponse :=
  let vs := (pagedRows s f page pageSize).map (shapeRow now)
  let total := countTotal s f
  { users := vs
    total := total
    page := page
    pageSize := pageSize
    totalPages := (total + pageSize - 1) / pageSize
    activeUsers := vs.countP (fun v => v.isActive)
    seniorUsers := vs.countP (fun v => v.isSenior)
    usersWithCompleteProfiles := vs.countP (fun v => decide (75 < v.profileCompleteness))
    usersByDivision := usersByDivisionOf vs
    filteredBy := match f with
      | none => "all"
      | some d => if d == "" then "all" else d }

/-- The JSON body of `PUT /api/profile` (`ProfileData` in the source).
`birthDate` is the epoch-millisecond value parsed by `new Date(birthDate)`
(a date-only string parses to that day's UTC midnight); `none` models an
absent optional field. -/
structure ProfileInput where
  username : String
  fullName : String
  email : String
  phone : String
  birthDate : Option Int
  bio : Option String
  longBio : Option String
  address : Option String
  profileJson : Option ProfileJson
deriving DecidableEq

/-- The collected field errors of the update validation (`errors` object). -/
structure ProfileErrors where
  username : Option String
  fullName : Option String
  email : Option String
  phone : Option String
  birthDate : Option String
  bio : Option String
  longBio : Option String
deriving DecidableEq

/-- Whitespace characters of the JS regex class `\s` (ASCII range). -/
def isSpaceChar (c : Char) : Bool :=
  c == ' ' || c == '\t' || c == '\n' || c == '\r' || c == '\x0b' || c == '\x0c'

/-- The test `/^\S+@\S+\.\S+$/.test(email)`: the whole string splits as
`a ++ "@" ++ b ++ "." ++ c` with `a`, `b`, `c` nonempty and free of
whitespace.  Equivalently: no whitespace anywhere, some index `i ≥ 1`
holds `@`, and some index `j` with `i + 2 ≤ j ≤ length - 2` holds `.`. -/
def emailFormatOk (e : String) : Bool :=
  let cs := e.toList
  cs.all (fun c => !isSpaceChar c) &&
    (List.range cs.length).any (fun i =>
      (List.range cs.length).any (fun j =>
        decide (1 ≤ i) && decide (i + 2 ≤ j) && decide (j + 2 ≤ cs.length) &&
          (cs.getD i ' ' == '@') && (cs.getD j ' ' == '.')))

/-- The test `/^\d{10,15}$/.test(phone)`. -/
def phoneFormatOk (p : String) : Bool :=
  p.toList.all (fun c => c.isDigit) &&
    decide (10 ≤ p.length) && decide (p.length ≤ 15)

/-- `today.setHours(0,0,0,0)` under a UTC server clock: the current epoch
timestamp truncated to the start of its calendar day (`Int.emod` is
non-negative for the positive modulus, so this is the floor multiple). -/
def midnightOf (now : Int) : Int := now - now % 86400000

/-- The validation block of `updateProfile`, translated clause by clause.
All clauses are evaluated on the raw request body before any storage
statement; every violated clause contributes its message. -/
def validate (inp : ProfileInput) (now : Int) : ProfileErrors :=
  { username :=
      if inp.username.length < 6 then
        some "Username must be at least 6 characters." else none
    fullName := if inp.fullName == "" then some "Full name is required." else none
    email :=
      if !emailFormatOk inp.email then some "Must be a valid email format." else none
    phone := if !phoneFormatOk inp.phone then some "Phone must be 10-15 digits." else none
    birthDate :=
      match inp.birthDate with
      | none => none
      | some bd =>
          if midnightOf now < bd then
            some "Birth date cannot be in the future." else none
    bio :=
      match inp.bio with
      | none => none
      | some b =>
          if 160 < b.length then some "Bio must be 160 characters or less." else none
    longBio :=
      match inp.longBio with
      | none => none
      | some b =>
          if 2000 < b.length then
            some "Long bio must be 2000 characters or less." else none }

/-- `Object.keys(errors)`, in the insertion order of the validation code. -/
def errorKeys (e : ProfileErrors) : List String :=
  (if e.username.isSome then ["username"] else []) ++
  (if e.fullName.isSome then ["fullName"] else []) ++
  (if e.email.isSome then ["email"] else []) ++
  (if e.phone.isSome then ["phone"] else []) ++
  (if e.birthDate.isSome then ["birthDate"] else []) ++
  (if e.bio.isSome then ["bio"] else []) ++
  (if e.longBio.isSome then ["longBio"] else [])

/-- `Object.keys(errors).length > 0`. -/
def hasErrors (e : ProfileErrors) : Bool := !(errorKeys e).isEmpty

/-- The `user` object of a 200 response of `PUT /api/profile` (the select
after the update joins no `auth` row, so it carries no email). -/
structure ProfileView where
  id : Nat
  authId : Nat
  username : String
  fullName : String
  bio : Option String
  longBio : Option String
  profileJson : Option ProfileJson
  address : Option String
  phoneNumber : Option String
  birthDate : Option Int
  role : Option String
  division : Option String
  logCount : Nat
  roleCount : Nat
deriving DecidableEq

/-- The lateral sub-select `SELECT role FROM user_roles WHERE user_id = uid
ORDER BY created_at DESC LIMIT 1` (ties on `created_at` are broken by the
storage's unspecified default order; the stable sort keeps table order). -/
def currentRole (s : Storage) (uid : Nat) : Option String :=
  ((List.insertionSort (fun a b : RoleRow => b.created_at ≤ a.created_at)
      (s.user_roles.filter (fun r => r.user_id == uid))).head?).map
    (fun r => r.role)

/-- The lateral sub-select for the most recently created division row. -/
def currentDivision (s : Storage) (uid : Nat) : Option String :=
  ((List.insertionSort (fun a b : DivisionRow => b.created_at ≤ a.created_at)
      (s.user_divisions.filter (fun d => d.user_id == uid))).head?).map
    (fun d => d.division_name)

/-- The re-select of `updateProfile` (`SELECT u.*, ur.role, ud.division_name,
log_count, role_count ... WHERE u.id = $1`): none when no user row matches. -/
def profileSelect (s : Storage) (uid : Nat) : Option ProfileView :=
  (s.users.find? (fun u => u.id == uid)).map (fun u =>
    { id := u.id
      authId := u.auth_id
      username := u.username
      fullName := u.full_name
      bio := u.bio
      longBio := u.long_bio
      profileJson := u.profile_json
      address := u.address
      phoneNumber := u.phone_number
      birthDate := u.birth_date
      role := currentRole s u.id
      division := currentDivision s u.id
      logCount := logCountOf s u.id
      roleCount := roleCountOf s u.id })

/-- The combined UPDATE statement of `updateProfile`: overwrite every
mutable column of the matching `users` rows with the request's values
(absent optional fields store NULL) and set `updated_at`; propagate the
email and `updated_at` to the linked `auth` rows via `RETURNING auth_id`. -/
def applyUpdate (s : Storage) (uid : Nat) (inp : ProfileInput) (now : Int) :
    Storage :=
  let users2 := s.users.map (fun u =>
    if u.id == uid then
      { u with
        username := inp.username
        full_name := inp.fullName
        bio := inp.bio
        long_bio := inp.longBio
        address := inp.address
        phone_number := some inp.phone
        birth_date := inp.birthDate
        profile_json := inp.profileJson
        updated_at := now }
    else u)
  let authIds := (s.users.filter (fun u => u.id == uid)).map (fun u => u.auth_id)
  let auth2 := s.auth.map (fun a =>
    if authIds.contains a.id then { a with email := inp.email, updated_at := now }
    else a)
  { s with users := users2, auth := auth2 }

/-- The three possible response bodies of `PUT /api/profile`: 400 with the
collected errors, 200 with the re-selected view, or 500. -/
inductive ProfileResponse where
  | validationError (errors : ProfileErrors)
  | success (user : ProfileView)
  | serverError
deriving DecidableEq

/-- The `PUT /api/profile` handler: validate on the raw body (no storage
statement yet); on any violation return 400 with the collected errors and
an unchanged state.  Otherwise run the UPDATE, run the re-select on the
updated state, and only then append the `update_profile` log row; the
response is built from the re-selected view (a missing user makes the
response construction throw, caught as a 500 — after the log insert). -/
def updateProfile (s : Storage) (uid : Nat) (inp : ProfileInput) (now : Int) :
    ProfileResponse × Storage :=
  let errs := validate inp now
  if hasErrors errs then (ProfileResponse.validationError errs, s)
  else
    let s1 := applyUpdate s uid inp now
    let view := profileSelect s1 uid
    let s2 := { s1 with
      user_logs := s1.user_logs ++ [{ user_id := uid, action := "update_profile" }] }
    match view with
    | some v => (ProfileResponse.success v, s2)
    | none => (ProfileResponse.serverError, s2)

/-- The `logCount` carried by a profile response, when it is a 200. -/
def responseLogCount : ProfileResponse → Option Nat
  | ProfileResponse.success v => some v.logCount
  | _ => none

/-- UTC calendar-day index of an epoch-millisecond timestamp (floor). -/
def dayIndex (t : Int) : Int := t / 86400000

/-! Concrete storage states and request bodies used to evaluate the
handlers at specific inputs. -/

/-- A user row with no populated optional columns. -/
def uEx : UserRow :=
  { id := 1, auth_id := 1, username := "user01", full_name := "U",
    birth_date := none, bio := none, long_bio := none, profile_json := none,
    address := none, phone_number := none, created_at := 0, updated_at := 0 }

/-- One user holding two division-assignment rows (HR, created later, is the
current one) and no other child rows. -/
def fanStorage : Storage :=
  { users := [uEx], auth := [],
    user_roles := [],
    user_divisions := [{ user_id := 1, division_name := "Tech", created_at := 0 },
                       { user_id := 1, division_name := "HR", created_at := 1 }],
    user_logs := [] }

/-- One user with an auth row and no child rows at all. -/
def sEx : Storage :=
  { users := [uEx], auth := [{ id := 1, email := "a@a.co", updated_at := 0 }],
    user_roles := [], user_divisions := [], user_logs := [] }

/-- A fully valid update request with every optional field absent. -/
def inpEx : ProfileInput :=
  { username := "userone", fullName := "User One", email := "a@b.co",
    phone := "0812345678", birthDate := none, bio := none, longBio := none,
    address := none, profileJson := none }

/-- An update request whose only violations are the 3-character username and
the malformed email. -/
def inpBad : ProfileInput :=
  { username := "abc", fullName := "Some One", email := "bademail",
    phone := "0812345678", birthDate := none, bio := none, longBio := none,
    address := none, profileJson := none }

/-- A valid update request whose birthDate is noon of calendar day 20000. -/
def inpNoonBirth : ProfileInput :=
  { username := "userone", fullName := "User One", email := "a@b.co",
    phone := "0812345678", birthDate := some (20000 * 86400000 + 43200000),
    bio := none, longBio := none, address := none, profileJson := none }

/-- A valid update request whose birthDate is the epoch (day 0, midnight). -/
def inpEpochBirth : ProfileInput :=
  { username := "userone", fullName := "User One", email := "a@b.co",
    phone := "0812345678", birthDate := some 0,
    bio := none, longBio := none, address := none, profileJson := none }

/-- A stored user row with every optional column populated. -/
def uOld : UserRow :=
  { id := 1, auth_id := 1, username := "olduser1", full_name := "Old Name",
    birth_date := some 0, bio := some "old bio", long_bio := some "old long bio",
    profile_json := none, address := some "old addr",
    phone_number := some "0811111111", created_at := 0, updated_at := 0 }

/-- A storage state holding `uOld` and its auth row. -/
def sOld : Storage :=
  { users := [uOld], auth := [{ id := 1, email := "o@o.co", updated_at := 0 }],
    user_roles := [], user_divisions := [], user_logs := [] }

/-- A valid update request omitting every optional field. -/
def inpNew : ProfileInput :=
  { username := "newuser1", fullName := "New Name", email := "n@n.co",
    phone := "0822222222", birthDate := none, bio := none, longBio := none,
    address := none, profileJson := none }

/-- The user row expected in storage after `updateProfile sOld 1 inpNew 7`:
every mutable column overwritten, absent optional fields now NULL. -/
def uNew : UserRow :=
  { id := 1, auth_id := 1, username := "newuser1", full_name := "New Name",
    birth_date := none, bio := none, long_bio := none, profile_json := none,
    address := none, phone_number := some "0822222222",
    created_at := 0, updated_at := 7 }

/-- The single joined row contributed to the listing query by a user with
no role and no division assignments. -/
def childlessRow (s : Storage) (u : UserRow) : JoinedRow :=
  { u := u, email := emailOf s u.auth_id, role := none, division := none,
    log_count := logCountOf s u.id, role_count := roleCountOf s u.id,
    division_count := divisionCountOf s u.id,
    login_count := actionCountOf s u.id "login",
    update_count := actionCountOf s u.id "update_profile" }

/-! Helper lemmas. -/

theorem leftFan_nil {α β : Type} (f : α → β) : leftFan f ([] : List α) = [none] := rfl

theorem leftFan_cons {α β : Type} (f : α → β) (a : α) (t : List α) :
    leftFan f (a :: t) = (a :: t).map (fun x => some (f x)) := rfl

theorem exists_mem_leftFan {α β : Type} (f : α → β) (l : List α) :
    ∃ o, o ∈ leftFan f l := by
  cases l with
  | nil => exact ⟨none, by simp [leftFan_nil]⟩
  | cons a t => exact ⟨some (f a), by simp [leftFan_cons]⟩

theorem mem_leftFan_some {α β : Type} (f : α → β) (l : List α) (b : β) :
    some b ∈ leftFan f l ↔ ∃ x ∈ l, f x = b := by
  cases l with
  | nil => simp [leftFan_nil]
  | cons a t =>
      simp only [leftFan_cons, List.mem_map, Option.some.injEq]

theorem mem_joinedRows_iff (s : Storage) (r : JoinedRow) :
    r ∈ joinedRows s ↔
      ∃ u ∈ s.users,
        ∃ ro ∈ leftFan RoleRow.role (s.user_roles.filter (fun x => x.user_id == u.id)),
          ∃ dv ∈ leftFan DivisionRow.division_name
              (s.user_divisions.filter (fun x => x.user_id == u.id)),
            r = { u := u
                  email := emailOf s u.auth_id
                  role := ro
                  division := dv
                  log_count := logCountOf s u.id
                  role_count := roleCountOf s u.id
                  division_count := divisionCountOf s u.id
                  login_count := actionCountOf s u.id "login"
                  update_count := actionCountOf s u.id "update_profile" } := by
  simp only [joinedRows, List.mem_flatMap, List.mem_map]
  constructor
  · rintro ⟨u, hu, ro, hro, dv, hdv, rfl⟩
    exact ⟨u, hu, ro, hro, dv, hdv, rfl⟩
  · rintro ⟨u, hu, ro, hro, dv, hdv, rfl⟩
    exact ⟨u, hu, ro, hro, dv, hdv, rfl⟩

theorem sumSnd_bumpDivision (acc : List (Option String × Nat)) (k : Option String) :
    ((bumpDivision acc k).map Prod.snd).sum = ((acc.map Prod.snd).sum) + 1 := by
  induction acc with
  | nil => simp [bumpDivision]
  | cons hd tl ih =>
      obtain ⟨k1, n⟩ := hd
      by_cases hk : k1 = k
      · simp [bumpDivision, hk]
        omega
      · simp [bumpDivision, hk, ih]
        omega

theorem sumSnd_foldl_bump (vs : List UserView) :
    ∀ acc : List (Option String × Nat),
      (((vs.foldl (fun acc v => bumpDivision acc v.division) acc)).map Prod.snd).sum
        = (acc.map Prod.snd).sum + vs.length := by
  induction vs with
  | nil => intro acc; simp
  | cons v tl ih =>
      intro acc
      simp only [List.foldl_cons, List.length_cons]
      rw [ih, sumSnd_bumpDivision]
      omega

/-! Claim theorems. -/

/-- C1: the claim says each user row of a returned page joins at most one
current role and one current division, so each user id appears at most once
per page.  The row query instead left-joins every `user_roles` and
`user_divisions` row: on a storage whose single user holds two division
assignments, the unfiltered first page lists user id 1 twice, and the page
also carries the older, non-current division "Tech". -/
theorem C1_page_duplicates_user :
    ((listUsers fanStorage none 1 20 0).users.map (fun v => v.id)) = [1, 1] ∧
      some "Tech" ∈ ((listUsers fanStorage none 1 20 0).users.map (fun v => v.division)) := by
  decide

/-- C2: the claim says the returned row count equals
min(pageSize, max(0, total - (page-1)*pageSize)).  On the same two-division
storage the count query reports total = 1 (distinct user ids) while the
fanned-out row query returns 2 rows on page 1 with pageSize 20, where the
claimed formula gives min 20 (1 - 0) = 1. -/
theorem C2_rowcount_formula_fails :
    (listUsers fanStorage none 1 20 0).total = 1 ∧
      (listUsers fanStorage none 1 20 0).users.length = 2 ∧
      min 20 (max 0 ((1 : Int) - 0)) = 1 := by
  decide

/-- C7: any two rows of a returned page are ordered by creation time
descending, ids descending on ties: for an earlier row `a` and a later row
`b`, `b.createdAt ≤ a.createdAt`, and `b.id ≤ a.id` whenever the creation
times are equal. -/
theorem C7_page_rows_sorted (s : Storage) (f : Option String)
    (page pageSize : Nat) (now : Int) :
    List.Pairwise
      (fun a b : UserView =>
        b.createdAt ≤ a.createdAt ∧ (a.createdAt = b.createdAt → b.id ≤ a.id))
      (listUsers s f page pageSize now).users := by
  show List.Pairwise _ ((pagedRows s f page pageSize).map (shapeRow now))
  rw [List.pairwise_map]
  have hsorted : List.Pairwise rowLE (sortedRows s f) :=
    List.sorted_insertionSort rowLE _
  have hsub : (pagedRows s f page pageSize).Sublist (sortedRows s f) :=
    (List.take_sublist _ _).trans (List.drop_sublist _ _)
  refine (hsorted.sublist hsub).imp ?_
  intro a b hab
  unfold rowLE at hab
  simp only [shapeRow]
  constructor
  · omega
  · intro h; omega

/-- C9: the values of the `usersByDivision` summary object, computed over
the returned page only, sum to the number of rows in the returned page. -/
theorem C9_division_summary_sums (s : Storage) (f : Option String)
    (page pageSize : Nat) (now : Int) :
    (((listUsers s f page pageSize now).usersByDivision).map Prod.snd).sum
      = (listUsers s f page pageSize now).users.length := by
  show ((usersByDivisionOf ((pagedRows s f page pageSize).map (shapeRow now))).map Prod.snd).sum
    = ((pagedRows s f page pageSize).map (shapeRow now)).length
  rw [usersByDivisionOf, sumSnd_foldl_bump]
  simp

theorem rowWhere_ids_eq_countWhere_ids (s : Storage) (f : Option String) :
    (((joinedRows s).filter (matchesWhere f)).map (fun r => r.u.id)).toFinset
      = ((s.users.filter (matchesCountWhere s f)).map (fun u => u.id)).toFinset := by
  ext a
  simp only [List.mem_toFinset, List.mem_map, List.mem_filter]
  constructor
  · rintro ⟨r, ⟨hrj, hrw⟩, rfl⟩
    rw [mem_joinedRows_iff] at hrj
    obtain ⟨u, hu, ro, _hro, dv, hdv, rfl⟩ := hrj
    refine ⟨u, ⟨hu, ?_⟩, rfl⟩
    cases f with
    | none => rfl
    | some d =>
        by_cases hsent : (d == "" || d == "all") = true
        · show (if (d == "" || d == "all") = true then true else _) = true
          rw [if_pos hsent]
        · show (if (d == "" || d == "all") = true then true
              else s.user_divisions.any fun dv => dv.user_id == u.id && dv.division_name == d) = true
          rw [if_neg hsent]
          have hrw2 : (if (d == "" || d == "all") = true then true
              else dv == some d) = true := hrw
          rw [if_neg hsent] at hrw2
          have hdv_eq : dv = some d := by simpa using hrw2
          subst hdv_eq
          rw [mem_leftFan_some] at hdv
          obtain ⟨x, hx, hxname⟩ := hdv
          rw [List.mem_filter] at hx
          rw [List.any_eq_true]
          exact ⟨x, hx.1, by simp [hxname]; exact (by simpa using hx.2)⟩
  · rintro ⟨u, ⟨hu, hcw⟩, rfl⟩
    obtain ⟨ro, hro⟩ :=
      exists_mem_leftFan RoleRow.role (s.user_roles.filter (fun x => x.user_id == u.id))
    have hbuild : ∀ dv,
        dv ∈ leftFan DivisionRow.division_name
            (s.user_divisions.filter (fun x => x.user_id == u.id)) →
        matchesWhere f
          { u := u, email := emailOf s u.auth_id, role := ro, division := dv,
            log_count := logCountOf s u.id, role_count := roleCountOf s u.id,
            division_count := divisionCountOf s u.id,
            login_count := actionCountOf s u.id "login",
            update_count := actionCountOf s u.id "update_profile" } = true →
        ∃ r, (r ∈ joinedRows s ∧ matchesWhere f r = true) ∧ r.u.id = u.id := by
      intro dv hdv hw
      refine ⟨_, ⟨?_, hw⟩, rfl⟩
      rw [mem_joinedRows_iff]
      exact ⟨u, hu, ro, hro, dv, hdv, rfl⟩
    cases f with
    | none =>
        obtain ⟨dv, hdv⟩ := exists_mem_leftFan DivisionRow.division_name
          (s.user_divisions.filter (fun x => x.user_id == u.id))
        exact hbuild dv hdv rfl
    | some d =>
        by_cases hsent : (d == "" || d == "all") = true
        · obtain ⟨dv, hdv⟩ := exists_mem_leftFan DivisionRow.division_name
            (s.user_divisions.filter (fun x => x.user_id == u.id))
          refine hbuild dv hdv ?_
          show (if (d == "" || d == "all") = true then true else _) = true
          rw [if_pos hsent]
        · have hcw2 : (if (d == "" || d == "all") = true then true
              else s.user_divisions.any fun dv => dv.user_id == u.id && dv.division_name == d) = true := hcw
          rw [if_neg hsent, List.any_eq_true] at hcw2
          obtain ⟨x, hx, hxprop⟩ := hcw2
          rw [Bool.and_eq_true, beq_iff_eq, beq_iff_eq] at hxprop
          obtain ⟨hxid, hxname⟩ := hxprop
          refine hbuild (some d) ?_ ?_
          · rw [mem_leftFan_some]
            exact ⟨x, List.mem_filter.mpr ⟨hx, by simp [hxid]⟩, hxname⟩
          · show (if (d == "" || d == "all") = true then true else (some d == some d)) = true
            rw [if_neg hsent]
            simp

/-- C4: for a fixed storage state and fixed division filter, the `total` of
the listing response is independent of page, pageSize and clock; it is the
number of distinct user ids satisfying the count query's WHERE predicate
(each user counted at most once); that predicate selects exactly the user
ids that the row query's WHERE clause lets through; and `totalPages` equals
the ceiling of `total / pageSize`. -/
theorem C4_total_distinct_invariant_ceil (s : Storage) (f : Option String)
    (p1 n1 p2 n2 : Nat) (now1 now2 : Int) (h : 1 ≤ n1) :
    (listUsers s f p1 n1 now1).total = (listUsers s f p2 n2 now2).total ∧
    (listUsers s f p1 n1 now1).total
        = ((s.users.filter (matchesCountWhere s f)).map (fun u => u.id)).toFinset.card ∧
    (((joinedRows s).filter (matchesWhere f)).map (fun r => r.u.id)).toFinset
        = ((s.users.filter (matchesCountWhere s f)).map (fun u => u.id)).toFinset ∧
    (listUsers s f p1 n1 now1).totalPages = (listUsers s f p1 n1 now1).total ⌈/⌉ n1 := by
  refine ⟨rfl, ?_, rowWhere_ids_eq_countWhere_ids s f, ?_⟩
  · show countTotal s f = _
    rw [List.card_toFinset]
    rfl
  · show (countTotal s f + n1 - 1) / n1 = countTotal s f ⌈/⌉ n1
    rw [Nat.ceilDiv_eq_add_pred_div]

/-- C4 witness: the total and totalPages facts evaluated on the
two-division storage at two different page windows. -/
theorem C4_witness :
    (listUsers fanStorage none 1 20 0).total = (listUsers fanStorage none 2 5 99).total ∧
      (listUsers fanStorage none 1 20 0).totalPages
        = (listUsers fanStorage none 1 20 0).total ⌈/⌉ 20 :=
  ⟨(C4_total_distinct_invariant_ceil fanStorage none 1 20 2 5 0 99 (by decide)).1,
   (C4_total_distinct_invariant_ceil fanStorage none 1 20 2 5 0 99 (by decide)).2.2.2⟩

theorem applyUpdate_users (s : Storage) (uid : Nat) (inp : ProfileInput) (now : Int) :
    (applyUpdate s uid inp now).users = s.users.map (fun u =>
      if u.id == uid then
        { u with
          username := inp.username
          full_name := inp.fullName
          bio := inp.bio
          long_bio := inp.longBio
          address := inp.address
          phone_number := some inp.phone
          birth_date := inp.birthDate
          profile_json := inp.profileJson
          updated_at := now }
      else u) := rfl

theorem profileSelect_logCount (s : Storage) (uid : Nat) (v : ProfileView)
    (h : profileSelect s uid = some v) : v.logCount = logCountOf s uid := by
  unfold profileSelect at h
  rcases hf : s.users.find? (fun u => u.id == uid) with _ | u0
  · rw [hf] at h
    simp at h
  · rw [hf] at h
    have hid : u0.id = uid := by simpa using List.find?_some hf
    simp only [Option.map_some', Option.some.injEq] at h
    rw [← h]
    show logCountOf s u0.id = logCountOf s uid
    rw [hid]

/-- C3 counterexample: the claim says a successful update appends the
`update_profile` log row and then re-fetches the view, so the returned log
count reflects the appended row.  On a user with no prior log rows the
handler returns a view with `logCount` 0 while the post-request storage
holds 1 log row for that user: the re-select ran before the insert. -/
theorem C3_view_misses_appended_log :
    responseLogCount (updateProfile sEx 1 inpEx 0).1 = some 0 ∧
      logCountOf (updateProfile sEx 1 inpEx 0).2 1 = 1 := by
  decide

/-- C3 amended: on a successful update the view is re-fetched first and the
`update_profile` log row is appended afterwards, so the returned log count
equals the pre-request log count while the final storage carries the
appended row. -/
theorem C3_refetch_precedes_append (s : Storage) (uid : Nat)
    (inp : ProfileInput) (now : Int)
    (hv : hasErrors (validate inp now) = false)
    (hu : ∃ u ∈ s.users, u.id = uid) :
    (updateProfile s uid inp now).2.user_logs
        = s.user_logs ++ [{ user_id := uid, action := "update_profile" }] ∧
      responseLogCount (updateProfile s uid inp now).1 = some (logCountOf s uid) := by
  have hsome : (profileSelect (applyUpdate s uid inp now) uid).isSome = true := by
    unfold profileSelect
    rw [Option.isSome_map', List.find?_isSome]
    obtain ⟨u0, hu0, hid⟩ := hu
    refine ⟨?_, ?_, ?_⟩
    · exact (if u0.id == uid then
        { u0 with
          username := inp.username, full_name := inp.fullName, bio := inp.bio,
          long_bio := inp.longBio, address := inp.address,
          phone_number := some inp.phone, birth_date := inp.birthDate,
          profile_json := inp.profileJson, updated_at := now }
      else u0)
    · rw [applyUpdate_users]
      exact List.mem_map_of_mem _ hu0
    · by_cases h0 : (u0.id == uid) = true
      · rw [if_pos h0]
        simpa using hid
      · rw [if_neg h0]
        simpa using hid
  rcases hsel : profileSelect (applyUpdate s uid inp now) uid with _ | v
  · rw [hsel] at hsome
    simp at hsome
  · have hred : updateProfile s uid inp now
        = (ProfileResponse.success v,
           { applyUpdate s uid inp now with
             user_logs := (applyUpdate s uid inp now).user_logs
               ++ [{ user_id := uid, action := "update_profile" }] }) := by
      simp only [updateProfile, hv, Bool.false_eq_true, if_false, hsel]
    constructor
    · rw [hred]
      rfl
    · rw [hred]
      show some v.logCount = some (logCountOf s uid)
      rw [profileSelect_logCount _ _ _ hsel]
      rfl

/-- C3 witness: the amended fact evaluated on a populated one-user storage
and a valid update request. -/
theorem C3_refetch_precedes_append_witness :
    (updateProfile sOld 1 inpNew 7).2.user_logs
        = sOld.user_logs ++ [{ user_id := 1, action := "update_profile" }] ∧
      responseLogCount (updateProfile sOld 1 inpNew 7).1 = some (logCountOf sOld 1) :=
  C3_refetch_precedes_append sOld 1 inpNew 7 (by decide) ⟨uOld, by decide, rfl⟩

/-- C5: the validation block runs on the raw request before any storage
statement and collects every violation.  A request whose username is "abc"
and whose email fails the pattern, all other fields valid, yields a 400
whose errors object has exactly the keys username and email, with the
storage state returned unchanged; and every validation failure whatsoever
leaves the storage state unchanged. -/
theorem C5_validation_collected_no_mutation (s : Storage) (uid : Nat)
    (now : Int) (inp : ProfileInput)
    (h1 : inp.username = "abc")
    (h2 : emailFormatOk inp.email = false)
    (h3 : ¬inp.fullName = "")
    (h4 : phoneFormatOk inp.phone = true)
    (h5 : ∀ bd, inp.birthDate = some bd → bd ≤ midnightOf now)
    (h6 : ∀ b, inp.bio = some b → b.length ≤ 160)
    (h7 : ∀ b, inp.longBio = some b → b.length ≤ 2000) :
    errorKeys (validate inp now) = ["username", "email"] ∧
      updateProfile s uid inp now
        = (ProfileResponse.validationError (validate inp now), s) ∧
      (∀ (s1 : Storage) (uid1 : Nat) (inp1 : ProfileInput) (now1 : Int),
          hasErrors (validate inp1 now1) = true →
          (updateProfile s1 uid1 inp1 now1).2 = s1) := by
  have eu : ((validate inp now).username).isSome = true := by
    simp only [validate, h1]
    rfl
  have ef : (validate inp now).fullName = none := by
    show (if inp.fullName == "" then some "Full name is required." else none) = none
    rw [if_neg (by simpa using h3)]
  have ee : ((validate inp now).email).isSome = true := by
    show ((if !emailFormatOk inp.email then some "Must be a valid email format."
      else none)).isSome = true
    simp [h2]
  have ep : (validate inp now).phone = none := by
    show (if !phoneFormatOk inp.phone then some "Phone must be 10-15 digits."
      else none) = none
    simp [h4]
  have ebd : (validate inp now).birthDate = none := by
    rcases hbd : inp.birthDate with _ | bd
    · simp [validate, hbd]
    · show (match inp.birthDate with
        | none => none
        | some bd => if midnightOf now < bd then
            some "Birth date cannot be in the future." else none) = none
      rw [hbd]
      exact if_neg (by have := h5 bd hbd; omega)
  have ebio : (validate inp now).bio = none := by
    rcases hb : inp.bio with _ | b
    · simp [validate, hb]
    · show (match inp.bio with
        | none => none
        | some b => if 160 < b.length then
            some "Bio must be 160 characters or less." else none) = none
      rw [hb]
      exact if_neg (by have := h6 b hb; omega)
  have elong : (validate inp now).longBio = none := by
    rcases hb : inp.longBio with _ | b
    · simp [validate, hb]
    · show (match inp.longBio with
        | none => none
        | some b => if 2000 < b.length then
            some "Long bio must be 2000 characters or less." else none) = none
      rw [hb]
      exact if_neg (by have := h7 b hb; omega)
  have hkeys : errorKeys (validate inp now) = ["username", "email"] := by
    unfold errorKeys
    rw [eu, ef, ee, ep, ebd, ebio, elong]
    rfl
  have hE : hasErrors (validate inp now) = true := by
    unfold hasErrors
    rw [hkeys]
    rfl
  refine ⟨hkeys, ?_, ?_⟩
  · simp [updateProfile, hE]
  · intro s1 uid1 inp1 now1 hE1
    simp [updateProfile, hE1]

/-- C5 witness: the exact-two-keys 400 and the unchanged storage, evaluated
on the request with username "abc" and email "bademail". -/
theorem C5_witness :
    errorKeys (validate inpBad 0) = ["username", "email"] ∧
      updateProfile sEx 1 inpBad 0
        = (ProfileResponse.validationError (validate inpBad 0), sEx) :=
  ⟨(C5_validation_collected_no_mutation sEx 1 0 inpBad rfl (by decide) (by decide)
      (by decide) (fun bd h => nomatch h) (fun b h => nomatch h)
      (fun b h => nomatch h)).1,
   (C5_validation_collected_no_mutation sEx 1 0 inpBad rfl (by decide) (by decide)
      (by decide) (fun bd h => nomatch h) (fun b h => nomatch h)
      (fun b h => nomatch h)).2.1⟩

/-- C6 counterexample: the claim says a birthDate whose calendar date equals
today is accepted with time-of-day ignored.  With the clock at 01:00 of day
20000 and a birthDate parsing to 12:00 of the same calendar day, the code
compares the un-truncated birthDate against today's midnight and rejects
it. -/
theorem C6_today_noon_rejected :
    dayIndex (20000 * 86400000 + 43200000) = dayIndex (20000 * 86400000 + 3600000) ∧
      ((validate inpNoonBirth (20000 * 86400000 + 3600000)).birthDate).isSome = true := by
  decide

/-- C6 amended: only the current time is truncated to midnight, the
birthDate's own time-of-day is compared as-is: a present birthDate passes
exactly when its calendar day precedes today's, or it falls on today's
calendar day at exactly midnight.  In particular a date-only birthDate of
today (parsing to midnight) is accepted and one of the next calendar day is
rejected. -/
theorem C6_birthdate_midnight_rule (inp : ProfileInput) (now bd : Int)
    (h : inp.birthDate = some bd) :
    (validate inp now).birthDate = none ↔
      (dayIndex bd < dayIndex now ∨
        (dayIndex bd = dayIndex now ∧ bd % 86400000 = 0)) := by
  have hshow : (validate inp now).birthDate
      = (if midnightOf now < bd then
          some "Birth date cannot be in the future." else none) := by
    simp only [validate, h]
  rw [hshow]
  unfold midnightOf dayIndex
  by_cases hlt : now - now % 86400000 < bd
  · rw [if_pos hlt]
    constructor
    · intro hc
      exact absurd hc (by simp)
    · intro hr
      exfalso
      omega
  · rw [if_neg hlt]
    constructor
    · intro _
      omega
    · intro _
      rfl

/-- C6 witness: a date-only birthDate at the epoch midnight is accepted when
the clock stands one day later. -/
theorem C6_birthdate_midnight_rule_witness :
    (validate inpEpochBirth 86400000).birthDate = none :=
  (C6_birthdate_midnight_rule inpEpochBirth 86400000 0 rfl).mpr (Or.inl (by decide))

/-- C8: a user with no ActivityLog, RoleAssignment or DivisionAssignment
rows still appears in an unfiltered listing whose page window covers the
row set, with all three counts 0, null role and division, and false
isActive and isSenior flags. -/
theorem C8_childless_user_listed (s : Storage) (u : UserRow) (pageSize : Nat)
    (now : Int)
    (hu : u ∈ s.users)
    (hl : ∀ l ∈ s.user_logs, l.user_id ≠ u.id)
    (hr : ∀ r ∈ s.user_roles, r.user_id ≠ u.id)
    (hd : ∀ d ∈ s.user_divisions, d.user_id ≠ u.id)
    (hn : (joinedRows s).length ≤ pageSize) :
    ∃ v ∈ (listUsers s none 1 pageSize now).users,
      v.id = u.id ∧ v.logCount = 0 ∧ v.roleCount = 0 ∧ v.divisionCount = 0 ∧
        v.role = none ∧ v.division = none ∧ v.isActive = false ∧
        v.isSenior = false := by
  have hlc : logCountOf s u.id = 0 := by
    unfold logCountOf
    rw [List.length_eq_zero, List.filter_eq_nil_iff]
    intro x hx hxx
    exact hl x hx (by simpa using hxx)
  have hrnil : s.user_roles.filter (fun x => x.user_id == u.id) = [] := by
    rw [List.filter_eq_nil_iff]
    intro x hx hxx
    exact hr x hx (by simpa using hxx)
  have hdnil : s.user_divisions.filter (fun x => x.user_id == u.id) = [] := by
    rw [List.filter_eq_nil_iff]
    intro x hx hxx
    exact hd x hx (by simpa using hxx)
  have hrc : roleCountOf s u.id = 0 := by
    unfold roleCountOf
    rw [hrnil]
    rfl
  have hdc : divisionCountOf s u.id = 0 := by
    unfold divisionCountOf
    rw [hdnil]
    rfl
  have hj : childlessRow s u ∈ joinedRows s := by
    rw [mem_joinedRows_iff]
    refine ⟨u, hu, none, ?_, none, ?_, rfl⟩
    · rw [hrnil, leftFan_nil]
      simp
    · rw [hdnil, leftFan_nil]
      simp
  have hjf : childlessRow s u ∈ (joinedRows s).filter (matchesWhere none) :=
    List.mem_filter.mpr ⟨hj, rfl⟩
  have hjs : childlessRow s u ∈ sortedRows s none :=
    (List.perm_insertionSort rowLE _).mem_iff.mpr hjf
  have hpaged : pagedRows s none 1 pageSize = sortedRows s none := by
    unfold pagedRows
    have h0 : (1 - 1) * pageSize = 0 := by simp
    rw [h0, List.drop_zero]
    apply List.take_of_length_le
    calc (sortedRows s none).length
        = ((joinedRows s).filter (matchesWhere none)).length :=
          (List.perm_insertionSort _ _).length_eq
      _ ≤ (joinedRows s).length := List.length_filter_le _ _
      _ ≤ pageSize := hn
  refine ⟨shapeRow now (childlessRow s u), ?_, rfl, hlc, hrc, hdc, rfl, rfl, ?_, rfl⟩
  · show _ ∈ (pagedRows s none 1 pageSize).map (shapeRow now)
    rw [hpaged]
    exact List.mem_map_of_mem _ hjs
  · show decide (5 < logCountOf s u.id) = false
    rw [hlc]
    rfl

/-- C8 witness: the childless user of the one-user storage appears on the
first page with zeroed counts, null labels and false flags. -/
theorem C8_witness :
    ∃ v ∈ (listUsers sEx none 1 20 0).users,
      v.id = uEx.id ∧ v.logCount = 0 ∧ v.roleCount = 0 ∧ v.divisionCount = 0 ∧
        v.role = none ∧ v.division = none ∧ v.isActive = false ∧
        v.isSenior = false :=
  C8_childless_user_listed sEx uEx 20 0 (by decide)
    (fun x hx => nomatch hx) (fun x hx => nomatch hx) (fun x hx => nomatch hx)
    (by decide)

/-- C10: a successful update overwrites every mutable User column with the
request's values: any stored row carrying the updated id ends with exactly
the request's username, full name, bio, long bio, address, phone, birth
date and profile document (absent optional fields stored as NULL), and the
request-time `updated_at`. -/
theorem C10_update_overwrites_all (s : Storage) (uid : Nat)
    (inp : ProfileInput) (now : Int)
    (hv : hasErrors (validate inp now) = false) :
    ∀ u1 ∈ (updateProfile s uid inp now).2.users, u1.id = uid →
      u1.username = inp.username ∧ u1.full_name = inp.fullName ∧
        u1.bio = inp.bio ∧ u1.long_bio = inp.longBio ∧ u1.address = inp.address ∧
        u1.phone_number = some inp.phone ∧ u1.birth_date = inp.birthDate ∧
        u1.profile_json = inp.profileJson ∧ u1.updated_at = now := by
  intro u1 hmem hid
  have husers : (updateProfile s uid inp now).2.users
      = (applyUpdate s uid inp now).users := by
    simp only [updateProfile, hv, Bool.false_eq_true, if_false]
    rcases profileSelect (applyUpdate s uid inp now) uid with _ | v <;> rfl
  rw [husers, applyUpdate_users, List.mem_map] at hmem
  obtain ⟨u0, hu0, rfl⟩ := hmem
  by_cases h0 : (u0.id == uid) = true
  · rw [if_pos h0]
    exact ⟨rfl, rfl, rfl, rfl, rfl, rfl, rfl, rfl, rfl⟩
  · rw [if_neg h0] at hid
    exact absurd (by simp [hid]) h0

/-- C10 witness: updating the fully-populated stored user with a request
omitting every optional field leaves the row holding NULLs in those
columns and the request's values elsewhere. -/
theorem C10_witness :
    uNew.username = inpNew.username ∧ uNew.full_name = inpNew.fullName ∧
      uNew.bio = inpNew.bio ∧ uNew.long_bio = inpNew.longBio ∧
      uNew.address = inpNew.address ∧ uNew.phone_number = some inpNew.phone ∧
      uNew.birth_date = inpNew.birthDate ∧ uNew.profile_json = inpNew.profileJson ∧
      uNew.updated_at = 7 :=
  C10_update_overwrites_all sOld 1 inpNew 7 (by decide) uNew (by decide) rfl

end UsersApi
